import Mathlib

/-!
Verification of the clone-authorization decision core in
`pkg/clone/auth.go` of containerized-data-importer.

The Go code decides whether a cross-namespace clone (from a PVC or a
snapshot source) is authorized, by submitting SubjectAccessReview
queries to an injected evaluator client and combining the boolean
answers.  We embed the code shallowly:

* the evaluator client (`SubjectAccessReviewsProxy` in Go, a single
  `Create` method returning a response whose `Status.Allowed` field is
  read, or an error) is a function from the submitted review spec to
  `Except ε Bool`, where `ε` is an abstract error type;
* each operation returns the ordered list of review specs it submitted
  to the client (the trace) together with the Go result triple
  `(bool, string, error)`, with `error` rendered as `Option ε`
  (`none` = Go `nil`);
* Go string maps (`Extra`) are association lists of
  `String × List String`; a Go `nil` map is `Option.none`.
-/

namespace CloneAuth

/-- Resource attributes of one authorization query
(`authorization.ResourceAttributes`); only the fields the Go code sets
are modelled, the rest are the zero string in every literal anyway. -/
structure ResourceAttributes where
  ns : String
  verb : String
  group : String
  resource : String
  subresource : String
  name : String
deriving DecidableEq

/-- The spec of a `SubjectAccessReview` as built by the Go code:
user, groups, optional extra attributes, and the resource attributes
slot filled in right before submission (`none` = Go `nil` pointer). -/
structure SubjectAccessReviewSpec where
  user : String
  groups : List String
  extra : Option (List (String × List String))
  resourceAttributes : Option ResourceAttributes
deriving DecidableEq

/-- The caller-supplied identity (`authentication.UserInfo`): name,
groups and the extra attribute map (association list, possibly empty
for a Go `nil` map). -/
structure UserInfo where
  username : String
  groups : List String
  extra : List (String × List String)
deriving DecidableEq

/-- The evaluator client: one call per submitted review, returning the
`Status.Allowed` field of the response or an error. -/
def SubjectAccessReviewsProxy (ε : Type) : Type :=
  SubjectAccessReviewSpec → Except ε Bool

/-- A decision call outcome: the ordered trace of review specs
submitted to the client, and the Go `(bool, string, error)` result. -/
def Outcome (ε : Type) : Type :=
  List SubjectAccessReviewSpec × (Bool × String × Option ε)

/-- Modelled from the spec: `cdiv1.SchemeGroupVersion.Group`, the clone
API group constant, lives in the separate API module and is not under
the sources given here; its value is the CDI API group string.  No
claim depends on the concrete value. -/
def schemeGroup : String := "cdi.kubevirt.io"

/-- Modelled from the spec: `cdiv1.DataVolumeCloneSourceSubresource`
also lives in the separate API module; its value is the clone-source
subresource name.  No claim depends on the concrete value. -/
def dataVolumeCloneSourceSubresource : String := "source"

/-- The first (explicit) resource-attribute literal: create the
datavolumes clone-source subresource in the source namespace. -/
def dvCloneAttr (ns name : String) : ResourceAttributes :=
  ⟨ns, "create", schemeGroup, "datavolumes", dataVolumeCloneSourceSubresource, name⟩

/-- The pods resource-attribute literal (unset Go fields are ""). -/
def podsAttr (ns name : String) : ResourceAttributes :=
  ⟨ns, "create", "", "pods", "", name⟩

/-- The pvcs resource-attribute literal (unset Go fields are ""). -/
def pvcsAttr (ns name : String) : ResourceAttributes :=
  ⟨ns, "create", "", "pvcs", "", name⟩

/-- Source function getResourceAttributesPvc: the two PVC-clone
queries, datavolumes clone-source first, pods second. -/
def getResourceAttributesPvc (ns name : String) : List ResourceAttributes :=
  [dvCloneAttr ns name, podsAttr ns name]

/-- Source function getExplicitResourceAttributeSnapshot. -/
def getExplicitResourceAttributeSnapshot (ns name : String) : ResourceAttributes :=
  dvCloneAttr ns name

/-- Source function getImplicitResourceAttributesSnapshot: pods then
pvcs. -/
def getImplicitResourceAttributesSnapshot (ns name : String) : List ResourceAttributes :=
  [podsAttr ns name, pvcsAttr ns name]

/-- Plugging one attribute set into the review spec right before
submission, as the source does for each loop iteration: the review
actually submitted for one attribute set. -/
def setResourceAttributes (spec : SubjectAccessReviewSpec) (ra : ResourceAttributes) :
    SubjectAccessReviewSpec :=
  ⟨spec.user, spec.groups, spec.extra, some ra⟩

/-- The denial message format string of the source
(`fmt.Sprintf("User %s has insufficient permissions in clone source namespace %s", ...)`). -/
def insufficientPermissions (user ns : String) : String :=
  "User " ++ user ++ " has insufficient permissions in clone source namespace " ++ ns

/-- The `for`-loop body of `sendSubjectAccessReviewsPvc`: submit the
reviews in order, stop on the first error (propagated) or the first
allowed response (`break`); `Except.ok false` after the list is
exhausted means the loop finished with `allowed == false`.  Returns the
trace of submitted reviews alongside. -/
def submitUntilAllowed {ε : Type} (client : SubjectAccessReviewsProxy ε)
    (sarSpec : SubjectAccessReviewSpec) :
    List ResourceAttributes → List SubjectAccessReviewSpec × Except ε Bool
  | [] => ([], Except.ok false)
  | ra :: rest =>
    let q := setResourceAttributes sarSpec ra
    match client q with
    | Except.error e => ([q], Except.error e)
    | Except.ok true => ([q], Except.ok true)
    | Except.ok false =>
      let p := submitUntilAllowed client sarSpec rest
      (q :: p.1, p.2)

/-- Source function sendSubjectAccessReviewsPvc: OR over the two PVC
queries with short-circuit on success; on error return
`(false, "", err)`; if no query was allowed return the denial reason. -/
def sendSubjectAccessReviewsPvc {ε : Type} (client : SubjectAccessReviewsProxy ε)
    (ns name : String) (sarSpec : SubjectAccessReviewSpec) : Outcome ε :=
  match submitUntilAllowed client sarSpec (getResourceAttributesPvc ns name) with
  | (tr, Except.error e) => (tr, (false, "", some e))
  | (tr, Except.ok true) => (tr, (true, "", none))
  | (tr, Except.ok false) =>
    (tr, (false, insufficientPermissions sarSpec.user ns, none))

/-- The `for`-loop of the implicit branch of
`sendSubjectAccessReviewsSnapshot`: submit the reviews in order, stop
on the first error (propagated as `(false, "", err)`) or the first
not-allowed response (returning the denial reason); if every review is
allowed return `(true, "", nil)`. -/
def submitAllAllowed {ε : Type} (client : SubjectAccessReviewsProxy ε)
    (sarSpec : SubjectAccessReviewSpec) (ns : String) :
    List ResourceAttributes → Outcome ε
  | [] => ([], (true, "", none))
  | ra :: rest =>
    let q := setResourceAttributes sarSpec ra
    match client q with
    | Except.error e => ([q], (false, "", some e))
    | Except.ok false => ([q], (false, insufficientPermissions sarSpec.user ns, none))
    | Except.ok true =>
      let p := submitAllAllowed client sarSpec ns rest
      (q :: p.1, p.2)

/-- Source function sendSubjectAccessReviewsSnapshot: first the
explicit datavolumes clone-source query; if it errors propagate, if it
is allowed return success, otherwise AND over the two implicit
queries. -/
def sendSubjectAccessReviewsSnapshot {ε : Type} (client : SubjectAccessReviewsProxy ε)
    (ns name : String) (sarSpec : SubjectAccessReviewSpec) : Outcome ε :=
  let q := setResourceAttributes sarSpec (getExplicitResourceAttributeSnapshot ns name)
  match client q with
  | Except.error e => ([q], (false, "", some e))
  | Except.ok true => ([q], (true, "", none))
  | Except.ok false =>
    let p := submitAllAllowed client sarSpec ns (getImplicitResourceAttributesSnapshot ns name)
    (q :: p.1, p.2)

/-- The `newExtra` computation of the user entry points: a fresh map
with the same entries when the input map is non-empty, the `nil` map
otherwise. -/
def newExtraOf (extra : List (String × List String)) :
    Option (List (String × List String)) :=
  if extra.length > 0 then some extra else none

/-- The `sarSpec` literal built by `CanUserClonePVC` and
`CanUserCloneSnapshot` (resource attributes not yet set). -/
def userSarSpec (userInfo : UserInfo) : SubjectAccessReviewSpec :=
  ⟨userInfo.username, userInfo.groups, newExtraOf userInfo.extra, none⟩

/-- Synthesized service-account principal, the Sprintf of the source. -/
def saUser (saNamespace saName : String) : String :=
  "system:serviceaccount:" ++ saNamespace ++ ":" ++ saName

/-- The fixed group list of the service-account entry points. -/
def saGroups (saNamespace : String) : List String :=
  ["system:serviceaccounts", "system:serviceaccounts:" ++ saNamespace,
   "system:authenticated"]

/-- The `sarSpec` literal built by `CanServiceAccountClonePVC` and
`CanServiceAccountCloneSnapshot` (no extra attributes, resource
attributes not yet set). -/
def saSarSpec (saNamespace saName : String) : SubjectAccessReviewSpec :=
  ⟨saUser saNamespace saName, saGroups saNamespace, none, none⟩

/-- Source function CanUserClonePVC. -/
def CanUserClonePVC {ε : Type} (client : SubjectAccessReviewsProxy ε)
    (sourceNamespace pvcName targetNamespace : String) (userInfo : UserInfo) :
    Outcome ε :=
  if sourceNamespace = targetNamespace then ([], (true, "", none))
  else sendSubjectAccessReviewsPvc client sourceNamespace pvcName (userSarSpec userInfo)

/-- Source function CanServiceAccountClonePVC. -/
def CanServiceAccountClonePVC {ε : Type} (client : SubjectAccessReviewsProxy ε)
    (pvcNamespace pvcName saNamespace saName : String) : Outcome ε :=
  if pvcNamespace = saNamespace then ([], (true, "", none))
  else sendSubjectAccessReviewsPvc client pvcNamespace pvcName (saSarSpec saNamespace saName)

/-- Source function CanUserCloneSnapshot. -/
def CanUserCloneSnapshot {ε : Type} (client : SubjectAccessReviewsProxy ε)
    (sourceNamespace pvcName targetNamespace : String) (userInfo : UserInfo) :
    Outcome ε :=
  if sourceNamespace = targetNamespace then ([], (true, "", none))
  else sendSubjectAccessReviewsSnapshot client sourceNamespace pvcName (userSarSpec userInfo)

/-- Source function CanServiceAccountCloneSnapshot. -/
def CanServiceAccountCloneSnapshot {ε : Type} (client : SubjectAccessReviewsProxy ε)
    (pvcNamespace pvcName saNamespace saName : String) : Outcome ε :=
  if pvcNamespace = saNamespace then ([], (true, "", none))
  else sendSubjectAccessReviewsSnapshot client pvcNamespace pvcName (saSarSpec saNamespace saName)

/-! ### Concrete fixtures used to instantiate the theorems -/

/-- A user with no groups and no extra attributes. -/
def uAlice : UserInfo := ⟨"alice", [], []⟩

/-- A user carrying groups and extra attributes. -/
def uBob : UserInfo := ⟨"bob", ["devs"], [("scopes", ["a", "b"])]⟩

/-- A client that denies every review. -/
def clientDenyAll : SubjectAccessReviewsProxy String :=
  fun _ => Except.ok false

/-- A client answering from the resource field of the attributes on
the submitted review (denying reviews without attributes). -/
def respondByResource (f : String → Except String Bool) :
    SubjectAccessReviewsProxy String :=
  fun q =>
    match q.resourceAttributes with
    | some ra => f ra.resource
    | none => Except.ok false

/-- A client allowing exactly the reviews whose resource is `res`. -/
def clientAllowResource (res : String) : SubjectAccessReviewsProxy String :=
  respondByResource (fun r => Except.ok (r == res))

/-- A client erroring with "boom" on reviews whose resource is `res`
and allowing all others. -/
def clientErrOnResource (res : String) : SubjectAccessReviewsProxy String :=
  respondByResource (fun r => if r == res then Except.error "boom" else Except.ok true)

/-- A client denying reviews whose resource is `res` and allowing all
others. -/
def clientDenyResource (res : String) : SubjectAccessReviewsProxy String :=
  respondByResource (fun r => Except.ok (r != res))

/-! ### Shared helper lemmas about the two submission helpers -/

/-- Every review in the trace of the OR loop is the given spec with
one of the listed resource attributes plugged in. -/
theorem mem_submitUntilAllowed_trace {ε : Type} (client : SubjectAccessReviewsProxy ε)
    (spec : SubjectAccessReviewSpec) (l : List ResourceAttributes)
    (q : SubjectAccessReviewSpec) (hq : q ∈ (submitUntilAllowed client spec l).1) :
    ∃ ra, ra ∈ l ∧ q = setResourceAttributes spec ra := by
  induction l with
  | nil => simp [submitUntilAllowed] at hq
  | cons ra rest ih =>
    rw [submitUntilAllowed] at hq
    cases hcl : client (setResourceAttributes spec ra) with
    | error e =>
      simp only [hcl] at hq
      simp at hq
      exact ⟨ra, by simp, hq⟩
    | ok b =>
      cases b with
      | true =>
        simp only [hcl] at hq
        simp at hq
        exact ⟨ra, by simp, hq⟩
      | false =>
        simp only [hcl] at hq
        simp at hq
        rcases hq with hq | hq
        · exact ⟨ra, by simp, hq⟩
        · rcases ih hq with ⟨ra', hmem, heq⟩
          exact ⟨ra', by simp [hmem], heq⟩

/-- Every review in the trace of the AND loop is the given spec with
one of the listed resource attributes plugged in. -/
theorem mem_submitAllAllowed_trace {ε : Type} (client : SubjectAccessReviewsProxy ε)
    (spec : SubjectAccessReviewSpec) (ns : String) (l : List ResourceAttributes)
    (q : SubjectAccessReviewSpec) (hq : q ∈ (submitAllAllowed client spec ns l).1) :
    ∃ ra, ra ∈ l ∧ q = setResourceAttributes spec ra := by
  induction l with
  | nil => simp [submitAllAllowed] at hq
  | cons ra rest ih =>
    rw [submitAllAllowed] at hq
    cases hcl : client (setResourceAttributes spec ra) with
    | error e =>
      simp only [hcl] at hq
      simp at hq
      exact ⟨ra, by simp, hq⟩
    | ok b =>
      cases b with
      | false =>
        simp only [hcl] at hq
        simp at hq
        exact ⟨ra, by simp, hq⟩
      | true =>
        simp only [hcl] at hq
        simp at hq
        rcases hq with hq | hq
        · exact ⟨ra, by simp, hq⟩
        · rcases ih hq with ⟨ra', hmem, heq⟩
          exact ⟨ra', by simp [hmem], heq⟩

/-- The OR loop submits at most one review per listed attribute set. -/
theorem submitUntilAllowed_trace_length_le {ε : Type}
    (client : SubjectAccessReviewsProxy ε) (spec : SubjectAccessReviewSpec)
    (l : List ResourceAttributes) :
    (submitUntilAllowed client spec l).1.length ≤ l.length := by
  induction l with
  | nil => simp [submitUntilAllowed]
  | cons ra rest ih =>
    rw [submitUntilAllowed]
    cases hcl : client (setResourceAttributes spec ra) with
    | error e => simp
    | ok b =>
      cases b with
      | true => simp
      | false => simpa using Nat.succ_le_succ ih

/-- The AND loop submits at most one review per listed attribute set. -/
theorem submitAllAllowed_trace_length_le {ε : Type}
    (client : SubjectAccessReviewsProxy ε) (spec : SubjectAccessReviewSpec)
    (ns : String) (l : List ResourceAttributes) :
    (submitAllAllowed client spec ns l).1.length ≤ l.length := by
  induction l with
  | nil => simp [submitAllAllowed]
  | cons ra rest ih =>
    rw [submitAllAllowed]
    cases hcl : client (setResourceAttributes spec ra) with
    | error e => simp
    | ok b =>
      cases b with
      | false => simp
      | true => simpa using Nat.succ_le_succ ih

/-! ### Response-by-response characterization of the PVC combinator -/

/-- First PVC query allowed: short-circuit success after one review. -/
theorem sendPvc_first_allowed {ε : Type} (client : SubjectAccessReviewsProxy ε)
    (ns name : String) (spec : SubjectAccessReviewSpec)
    (h1 : client (setResourceAttributes spec (dvCloneAttr ns name)) = Except.ok true) :
    sendSubjectAccessReviewsPvc client ns name spec =
      ([setResourceAttributes spec (dvCloneAttr ns name)], (true, "", none)) := by
  simp [sendSubjectAccessReviewsPvc, getResourceAttributesPvc, submitUntilAllowed, h1]

/-- First PVC query errors: the error propagates after one review. -/
theorem sendPvc_first_error {ε : Type} (client : SubjectAccessReviewsProxy ε)
    (ns name : String) (spec : SubjectAccessReviewSpec) (e : ε)
    (h1 : client (setResourceAttributes spec (dvCloneAttr ns name)) = Except.error e) :
    sendSubjectAccessReviewsPvc client ns name spec =
      ([setResourceAttributes spec (dvCloneAttr ns name)], (false, "", some e)) := by
  simp [sendSubjectAccessReviewsPvc, getResourceAttributesPvc, submitUntilAllowed, h1]

/-- First PVC query denied, second allowed: success after two reviews. -/
theorem sendPvc_second_allowed {ε : Type} (client : SubjectAccessReviewsProxy ε)
    (ns name : String) (spec : SubjectAccessReviewSpec)
    (h1 : client (setResourceAttributes spec (dvCloneAttr ns name)) = Except.ok false)
    (h2 : client (setResourceAttributes spec (podsAttr ns name)) = Except.ok true) :
    sendSubjectAccessReviewsPvc client ns name spec =
      ([setResourceAttributes spec (dvCloneAttr ns name),
        setResourceAttributes spec (podsAttr ns name)], (true, "", none)) := by
  simp [sendSubjectAccessReviewsPvc, getResourceAttributesPvc, submitUntilAllowed, h1, h2]

/-- First PVC query denied, second errors: the error propagates. -/
theorem sendPvc_second_error {ε : Type} (client : SubjectAccessReviewsProxy ε)
    (ns name : String) (spec : SubjectAccessReviewSpec) (e : ε)
    (h1 : client (setResourceAttributes spec (dvCloneAttr ns name)) = Except.ok false)
    (h2 : client (setResourceAttributes spec (podsAttr ns name)) = Except.error e) :
    sendSubjectAccessReviewsPvc client ns name spec =
      ([setResourceAttributes spec (dvCloneAttr ns name),
        setResourceAttributes spec (podsAttr ns name)], (false, "", some e)) := by
  simp [sendSubjectAccessReviewsPvc, getResourceAttributesPvc, submitUntilAllowed, h1, h2]

/-- Both PVC queries denied: the denial reason names user and source
namespace. -/
theorem sendPvc_both_denied {ε : Type} (client : SubjectAccessReviewsProxy ε)
    (ns name : String) (spec : SubjectAccessReviewSpec)
    (h1 : client (setResourceAttributes spec (dvCloneAttr ns name)) = Except.ok false)
    (h2 : client (setResourceAttributes spec (podsAttr ns name)) = Except.ok false) :
    sendSubjectAccessReviewsPvc client ns name spec =
      ([setResourceAttributes spec (dvCloneAttr ns name),
        setResourceAttributes spec (podsAttr ns name)],
       (false, insufficientPermissions spec.user ns, none)) := by
  simp [sendSubjectAccessReviewsPvc, getResourceAttributesPvc, submitUntilAllowed, h1, h2]

/-! ### Response-by-response characterization of the snapshot combinator -/

/-- Explicit snapshot query allowed: success after one review. -/
theorem sendSnapshot_explicit_allowed {ε : Type} (client : SubjectAccessReviewsProxy ε)
    (ns name : String) (spec : SubjectAccessReviewSpec)
    (h1 : client (setResourceAttributes spec (dvCloneAttr ns name)) = Except.ok true) :
    sendSubjectAccessReviewsSnapshot client ns name spec =
      ([setResourceAttributes spec (dvCloneAttr ns name)], (true, "", none)) := by
  simp [sendSubjectAccessReviewsSnapshot, getExplicitResourceAttributeSnapshot, h1]

/-- Explicit snapshot query errors: the error propagates after one
review. -/
theorem sendSnapshot_explicit_error {ε : Type} (client : SubjectAccessReviewsProxy ε)
    (ns name : String) (spec : SubjectAccessReviewSpec) (e : ε)
    (h1 : client (setResourceAttributes spec (dvCloneAttr ns name)) = Except.error e) :
    sendSubjectAccessReviewsSnapshot client ns name spec =
      ([setResourceAttributes spec (dvCloneAttr ns name)], (false, "", some e)) := by
  simp [sendSubjectAccessReviewsSnapshot, getExplicitResourceAttributeSnapshot, h1]

/-- Explicit denied, both implicit queries allowed: success after
three reviews. -/
theorem sendSnapshot_implicit_allowed {ε : Type} (client : SubjectAccessReviewsProxy ε)
    (ns name : String) (spec : SubjectAccessReviewSpec)
    (h1 : client (setResourceAttributes spec (dvCloneAttr ns name)) = Except.ok false)
    (h2 : client (setResourceAttributes spec (podsAttr ns name)) = Except.ok true)
    (h3 : client (setResourceAttributes spec (pvcsAttr ns name)) = Except.ok true) :
    sendSubjectAccessReviewsSnapshot client ns name spec =
      ([setResourceAttributes spec (dvCloneAttr ns name),
        setResourceAttributes spec (podsAttr ns name),
        setResourceAttributes spec (pvcsAttr ns name)], (true, "", none)) := by
  simp [sendSubjectAccessReviewsSnapshot, getExplicitResourceAttributeSnapshot,
    getImplicitResourceAttributesSnapshot, submitAllAllowed, h1, h2, h3]

/-- Explicit denied, pods implicit denied: denial after two reviews,
the pvcs query is never submitted. -/
theorem sendSnapshot_pods_denied {ε : Type} (client : SubjectAccessReviewsProxy ε)
    (ns name : String) (spec : SubjectAccessReviewSpec)
    (h1 : client (setResourceAttributes spec (dvCloneAttr ns name)) = Except.ok false)
    (h2 : client (setResourceAttributes spec (podsAttr ns name)) = Except.ok false) :
    sendSubjectAccessReviewsSnapshot client ns name spec =
      ([setResourceAttributes spec (dvCloneAttr ns name),
        setResourceAttributes spec (podsAttr ns name)],
       (false, insufficientPermissions spec.user ns, none)) := by
  simp [sendSubjectAccessReviewsSnapshot, getExplicitResourceAttributeSnapshot,
    getImplicitResourceAttributesSnapshot, submitAllAllowed, h1, h2]

/-- Explicit denied, pods allowed, pvcs denied: denial after three
reviews. -/
theorem sendSnapshot_pvcs_denied {ε : Type} (client : SubjectAccessReviewsProxy ε)
    (ns name : String) (spec : SubjectAccessReviewSpec)
    (h1 : client (setResourceAttributes spec (dvCloneAttr ns name)) = Except.ok false)
    (h2 : client (setResourceAttributes spec (podsAttr ns name)) = Except.ok true)
    (h3 : client (setResourceAttributes spec (pvcsAttr ns name)) = Except.ok false) :
    sendSubjectAccessReviewsSnapshot client ns name spec =
      ([setResourceAttributes spec (dvCloneAttr ns name),
        setResourceAttributes spec (podsAttr ns name),
        setResourceAttributes spec (pvcsAttr ns name)],
       (false, insufficientPermissions spec.user ns, none)) := by
  simp [sendSubjectAccessReviewsSnapshot, getExplicitResourceAttributeSnapshot,
    getImplicitResourceAttributesSnapshot, submitAllAllowed, h1, h2, h3]

/-- Explicit denied, pods implicit query errors: the error propagates
after two reviews. -/
theorem sendSnapshot_pods_error {ε : Type} (client : SubjectAccessReviewsProxy ε)
    (ns name : String) (spec : SubjectAccessReviewSpec) (e : ε)
    (h1 : client (setResourceAttributes spec (dvCloneAttr ns name)) = Except.ok false)
    (h2 : client (setResourceAttributes spec (podsAttr ns name)) = Except.error e) :
    sendSubjectAccessReviewsSnapshot client ns name spec =
      ([setResourceAttributes spec (dvCloneAttr ns name),
        setResourceAttributes spec (podsAttr ns name)], (false, "", some e)) := by
  simp [sendSubjectAccessReviewsSnapshot, getExplicitResourceAttributeSnapshot,
    getImplicitResourceAttributesSnapshot, submitAllAllowed, h1, h2]

/-- Explicit denied, pods allowed, pvcs query errors: the error
propagates after three reviews. -/
theorem sendSnapshot_pvcs_error {ε : Type} (client : SubjectAccessReviewsProxy ε)
    (ns name : String) (spec : SubjectAccessReviewSpec) (e : ε)
    (h1 : client (setResourceAttributes spec (dvCloneAttr ns name)) = Except.ok false)
    (h2 : client (setResourceAttributes spec (podsAttr ns name)) = Except.ok true)
    (h3 : client (setResourceAttributes spec (pvcsAttr ns name)) = Except.error e) :
    sendSubjectAccessReviewsSnapshot client ns name spec =
      ([setResourceAttributes spec (dvCloneAttr ns name),
        setResourceAttributes spec (podsAttr ns name),
        setResourceAttributes spec (pvcsAttr ns name)], (false, "", some e)) := by
  simp [sendSubjectAccessReviewsSnapshot, getExplicitResourceAttributeSnapshot,
    getImplicitResourceAttributesSnapshot, submitAllAllowed, h1, h2, h3]

/-! ### Reduction of the four entry points in the cross-namespace case -/

/-- Cross-namespace `CanUserClonePVC` delegates to the PVC combinator
with the user subject. -/
theorem canUserClonePVC_cross {ε : Type} (client : SubjectAccessReviewsProxy ε)
    (sns name tns : String) (u : UserInfo) (h : sns ≠ tns) :
    CanUserClonePVC client sns name tns u =
      sendSubjectAccessReviewsPvc client sns name (userSarSpec u) := by
  simp [CanUserClonePVC, h]

/-- Cross-namespace `CanServiceAccountClonePVC` delegates to the PVC
combinator with the service-account subject. -/
theorem canServiceAccountClonePVC_cross {ε : Type} (client : SubjectAccessReviewsProxy ε)
    (pns name saNs saName : String) (h : pns ≠ saNs) :
    CanServiceAccountClonePVC client pns name saNs saName =
      sendSubjectAccessReviewsPvc client pns name (saSarSpec saNs saName) := by
  simp [CanServiceAccountClonePVC, h]

/-- Cross-namespace `CanUserCloneSnapshot` delegates to the snapshot
combinator with the user subject. -/
theorem canUserCloneSnapshot_cross {ε : Type} (client : SubjectAccessReviewsProxy ε)
    (sns name tns : String) (u : UserInfo) (h : sns ≠ tns) :
    CanUserCloneSnapshot client sns name tns u =
      sendSubjectAccessReviewsSnapshot client sns name (userSarSpec u) := by
  simp [CanUserCloneSnapshot, h]

/-- Cross-namespace `CanServiceAccountCloneSnapshot` delegates to the
snapshot combinator with the service-account subject. -/
theorem canServiceAccountCloneSnapshot_cross {ε : Type} (client : SubjectAccessReviewsProxy ε)
    (pns name saNs saName : String) (h : pns ≠ saNs) :
    CanServiceAccountCloneSnapshot client pns name saNs saName =
      sendSubjectAccessReviewsSnapshot client pns name (saSarSpec saNs saName) := by
  simp [CanServiceAccountCloneSnapshot, h]

/-! ### Trace shape lemmas -/

/-- The trace of the PVC combinator is exactly the trace of the OR
loop. -/
theorem sendPvc_trace_eq {ε : Type} (client : SubjectAccessReviewsProxy ε)
    (ns name : String) (spec : SubjectAccessReviewSpec) :
    (sendSubjectAccessReviewsPvc client ns name spec).1 =
      (submitUntilAllowed client spec (getResourceAttributesPvc ns name)).1 := by
  unfold sendSubjectAccessReviewsPvc
  rcases hp : submitUntilAllowed client spec (getResourceAttributesPvc ns name) with ⟨tr, r⟩
  rcases r with e | b
  · rfl
  · cases b <;> rfl

/-- Every review in the trace of the snapshot combinator is the given spec
with either the explicit or one of the implicit attribute sets. -/
theorem sendSnapshot_trace_sub {ε : Type} (client : SubjectAccessReviewsProxy ε)
    (ns name : String) (spec : SubjectAccessReviewSpec) :
    ∀ q ∈ (sendSubjectAccessReviewsSnapshot client ns name spec).1,
      ∃ ra, (ra = getExplicitResourceAttributeSnapshot ns name ∨
             ra ∈ getImplicitResourceAttributesSnapshot ns name) ∧
        q = setResourceAttributes spec ra := by
  intro q hq
  simp only [sendSubjectAccessReviewsSnapshot] at hq
  cases hcl : client (setResourceAttributes spec (getExplicitResourceAttributeSnapshot ns name)) with
  | error e =>
    rw [hcl] at hq
    simp at hq
    exact ⟨getExplicitResourceAttributeSnapshot ns name, Or.inl rfl, hq⟩
  | ok b =>
    cases b with
    | true =>
      rw [hcl] at hq
      simp at hq
      exact ⟨getExplicitResourceAttributeSnapshot ns name, Or.inl rfl, hq⟩
    | false =>
      rw [hcl] at hq
      simp at hq
      rcases hq with hq | hq
      · exact ⟨getExplicitResourceAttributeSnapshot ns name, Or.inl rfl, hq⟩
      · rcases mem_submitAllAllowed_trace client spec ns _ q hq with ⟨ra, hmem, heq⟩
        exact ⟨ra, Or.inr hmem, heq⟩

/-- Both PVC attribute sets target verb create, the source namespace
and the source object name. -/
theorem pvcAttr_fields (ns name : String) :
    ∀ ra ∈ getResourceAttributesPvc ns name,
      ra.verb = "create" ∧ ra.ns = ns ∧ ra.name = name := by
  intro ra hra
  simp [getResourceAttributesPvc] at hra
  rcases hra with h | h <;> subst h <;> simp [dvCloneAttr, podsAttr]

/-- All three snapshot attribute sets target verb create, the source
namespace and the source object name. -/
theorem snapshotAttr_fields (ns name : String) :
    ∀ ra, (ra = getExplicitResourceAttributeSnapshot ns name ∨
           ra ∈ getImplicitResourceAttributesSnapshot ns name) →
      ra.verb = "create" ∧ ra.ns = ns ∧ ra.name = name := by
  intro ra hra
  rcases hra with h | h
  · subst h
    simp [getExplicitResourceAttributeSnapshot, dvCloneAttr]
  · simp [getImplicitResourceAttributesSnapshot] at h
    rcases h with h | h <;> subst h <;> simp [podsAttr, pvcsAttr]

/-- Every review the PVC combinator submits carries the subject of the
given spec unchanged and attributes with verb create against the
source namespace and name. -/
theorem sendPvc_trace_fields {ε : Type} (client : SubjectAccessReviewsProxy ε)
    (ns name : String) (spec : SubjectAccessReviewSpec) :
    ∀ q ∈ (sendSubjectAccessReviewsPvc client ns name spec).1,
      q.user = spec.user ∧ q.groups = spec.groups ∧ q.extra = spec.extra ∧
      ∃ ra, q.resourceAttributes = some ra ∧
        ra.verb = "create" ∧ ra.ns = ns ∧ ra.name = name := by
  intro q hq
  rw [sendPvc_trace_eq] at hq
  rcases mem_submitUntilAllowed_trace client spec _ q hq with ⟨ra, hmem, heq⟩
  subst heq
  rcases pvcAttr_fields ns name ra hmem with ⟨h1, h2, h3⟩
  exact ⟨rfl, rfl, rfl, ra, rfl, h1, h2, h3⟩

/-- Every review the snapshot combinator submits carries the subject
of the given spec unchanged and attributes with verb create against
the source namespace and name. -/
theorem sendSnapshot_trace_fields {ε : Type} (client : SubjectAccessReviewsProxy ε)
    (ns name : String) (spec : SubjectAccessReviewSpec) :
    ∀ q ∈ (sendSubjectAccessReviewsSnapshot client ns name spec).1,
      q.user = spec.user ∧ q.groups = spec.groups ∧ q.extra = spec.extra ∧
      ∃ ra, q.resourceAttributes = some ra ∧
        ra.verb = "create" ∧ ra.ns = ns ∧ ra.name = name := by
  intro q hq
  rcases sendSnapshot_trace_sub client ns name spec q hq with ⟨ra, hmem, heq⟩
  subst heq
  rcases snapshotAttr_fields ns name ra hmem with ⟨h1, h2, h3⟩
  exact ⟨rfl, rfl, rfl, ra, rfl, h1, h2, h3⟩

/-- The PVC combinator submits at most two reviews. -/
theorem sendPvc_trace_length_le {ε : Type} (client : SubjectAccessReviewsProxy ε)
    (ns name : String) (spec : SubjectAccessReviewSpec) :
    (sendSubjectAccessReviewsPvc client ns name spec).1.length ≤ 2 := by
  rw [sendPvc_trace_eq]
  have h := submitUntilAllowed_trace_length_le client spec (getResourceAttributesPvc ns name)
  simpa [getResourceAttributesPvc] using h

/-- The snapshot combinator submits at most three reviews. -/
theorem sendSnapshot_trace_length_le {ε : Type} (client : SubjectAccessReviewsProxy ε)
    (ns name : String) (spec : SubjectAccessReviewSpec) :
    (sendSubjectAccessReviewsSnapshot client ns name spec).1.length ≤ 3 := by
  simp only [sendSubjectAccessReviewsSnapshot]
  cases hcl : client (setResourceAttributes spec (getExplicitResourceAttributeSnapshot ns name)) with
  | error e => simp
  | ok b =>
    cases b with
    | true => simp
    | false =>
      have h := submitAllAllowed_trace_length_le client spec ns
        (getImplicitResourceAttributesSnapshot ns name)
      simp only [getImplicitResourceAttributesSnapshot, List.length_cons,
        List.length_nil] at h ⊢
      omega

/-! ### Claim theorems -/

/-- C1: whenever the source namespace equals the target
(service-account) namespace, each of the four operations returns
`(true, "", nil)` and submits no review at all (empty trace), for any
client, identity and object name. -/
theorem claim_C1_same_namespace_shortcut {ε : Type} (client : SubjectAccessReviewsProxy ε)
    (sns name tns saName : String) (u : UserInfo) (h : sns = tns) :
    CanUserClonePVC client sns name tns u = ([], (true, "", none)) ∧
    CanServiceAccountClonePVC client sns name tns saName = ([], (true, "", none)) ∧
    CanUserCloneSnapshot client sns name tns u = ([], (true, "", none)) ∧
    CanServiceAccountCloneSnapshot client sns name tns saName = ([], (true, "", none)) := by
  subst h
  simp [CanUserClonePVC, CanServiceAccountClonePVC, CanUserCloneSnapshot,
    CanServiceAccountCloneSnapshot]

/-- C2: cross-namespace PVC clone submits the datavolumes clone-source
query first; if it is allowed the pods query is never submitted and the
result is `(true, "")`; if it is denied and the pods query is allowed,
the result is `(true, "")` after exactly those two reviews in that
order — for both the user and the service-account entry points. -/
theorem claim_C2_pvc_short_circuit_or {ε : Type} (client : SubjectAccessReviewsProxy ε)
    (sns name tns saNs saName : String) (u : UserInfo) :
    (sns ≠ tns →
      (client (setResourceAttributes (userSarSpec u) (dvCloneAttr sns name)) = Except.ok true →
        CanUserClonePVC client sns name tns u =
          ([setResourceAttributes (userSarSpec u) (dvCloneAttr sns name)],
           (true, "", none))) ∧
      (client (setResourceAttributes (userSarSpec u) (dvCloneAttr sns name)) = Except.ok false →
       client (setResourceAttributes (userSarSpec u) (podsAttr sns name)) = Except.ok true →
        CanUserClonePVC client sns name tns u =
          ([setResourceAttributes (userSarSpec u) (dvCloneAttr sns name),
            setResourceAttributes (userSarSpec u) (podsAttr sns name)],
           (true, "", none)))) ∧
    (sns ≠ saNs →
      (client (setResourceAttributes (saSarSpec saNs saName) (dvCloneAttr sns name)) =
          Except.ok true →
        CanServiceAccountClonePVC client sns name saNs saName =
          ([setResourceAttributes (saSarSpec saNs saName) (dvCloneAttr sns name)],
           (true, "", none))) ∧
      (client (setResourceAttributes (saSarSpec saNs saName) (dvCloneAttr sns name)) =
          Except.ok false →
       client (setResourceAttributes (saSarSpec saNs saName) (podsAttr sns name)) =
          Except.ok true →
        CanServiceAccountClonePVC client sns name saNs saName =
          ([setResourceAttributes (saSarSpec saNs saName) (dvCloneAttr sns name),
            setResourceAttributes (saSarSpec saNs saName) (podsAttr sns name)],
           (true, "", none)))) := by
  refine ⟨fun h => ⟨fun h1 => ?_, fun h1 h2 => ?_⟩, fun h => ⟨fun h1 => ?_, fun h1 h2 => ?_⟩⟩
  · rw [canUserClonePVC_cross client sns name tns u h]
    exact sendPvc_first_allowed client sns name _ h1
  · rw [canUserClonePVC_cross client sns name tns u h]
    exact sendPvc_second_allowed client sns name _ h1 h2
  · rw [canServiceAccountClonePVC_cross client sns name saNs saName h]
    exact sendPvc_first_allowed client sns name _ h1
  · rw [canServiceAccountClonePVC_cross client sns name saNs saName h]
    exact sendPvc_second_allowed client sns name _ h1 h2

/-- C3: cross-namespace snapshot clone submits the explicit
datavolumes clone-source query first; if it is allowed the result is
`(true, "")` and the trace is exactly that one review — neither
implicit query (pods, pvcs) is ever submitted — for both the user and
the service-account entry points. -/
theorem claim_C3_snapshot_explicit_allowed {ε : Type} (client : SubjectAccessReviewsProxy ε)
    (sns name tns saNs saName : String) (u : UserInfo) :
    (sns ≠ tns →
      client (setResourceAttributes (userSarSpec u) (dvCloneAttr sns name)) = Except.ok true →
      CanUserCloneSnapshot client sns name tns u =
        ([setResourceAttributes (userSarSpec u) (dvCloneAttr sns name)],
         (true, "", none))) ∧
    (sns ≠ saNs →
      client (setResourceAttributes (saSarSpec saNs saName) (dvCloneAttr sns name)) =
        Except.ok true →
      CanServiceAccountCloneSnapshot client sns name saNs saName =
        ([setResourceAttributes (saSarSpec saNs saName) (dvCloneAttr sns name)],
         (true, "", none))) := by
  refine ⟨fun h h1 => ?_, fun h h1 => ?_⟩
  · rw [canUserCloneSnapshot_cross client sns name tns u h]
    exact sendSnapshot_explicit_allowed client sns name _ h1
  · rw [canServiceAccountCloneSnapshot_cross client sns name saNs saName h]
    exact sendSnapshot_explicit_allowed client sns name _ h1

/-- C4: cross-namespace snapshot clone with the explicit query denied
evaluates the implicit queries in order pods, pvcs under AND: if both
are allowed the result is `(true, "")` after all three reviews; if the
pods query is denied the pvcs query is never submitted (trace stops at
two reviews) and the result is the denial naming the principal and the
source namespace; if pods is allowed and pvcs denied the same denial is
returned after three reviews — for both entry points. -/
theorem claim_C4_snapshot_implicit_and {ε : Type} (client : SubjectAccessReviewsProxy ε)
    (sns name tns saNs saName : String) (u : UserInfo) :
    (sns ≠ tns →
      client (setResourceAttributes (userSarSpec u) (dvCloneAttr sns name)) =
        Except.ok false →
      ((client (setResourceAttributes (userSarSpec u) (podsAttr sns name)) = Except.ok true →
        client (setResourceAttributes (userSarSpec u) (pvcsAttr sns name)) = Except.ok true →
        CanUserCloneSnapshot client sns name tns u =
          ([setResourceAttributes (userSarSpec u) (dvCloneAttr sns name),
            setResourceAttributes (userSarSpec u) (podsAttr sns name),
            setResourceAttributes (userSarSpec u) (pvcsAttr sns name)],
           (true, "", none))) ∧
       (client (setResourceAttributes (userSarSpec u) (podsAttr sns name)) = Except.ok false →
        CanUserCloneSnapshot client sns name tns u =
          ([setResourceAttributes (userSarSpec u) (dvCloneAttr sns name),
            setResourceAttributes (userSarSpec u) (podsAttr sns name)],
           (false,
            "User " ++ u.username ++
              " has insufficient permissions in clone source namespace " ++ sns,
            none))) ∧
       (client (setResourceAttributes (userSarSpec u) (podsAttr sns name)) = Except.ok true →
        client (setResourceAttributes (userSarSpec u) (pvcsAttr sns name)) = Except.ok false →
        CanUserCloneSnapshot client sns name tns u =
          ([setResourceAttributes (userSarSpec u) (dvCloneAttr sns name),
            setResourceAttributes (userSarSpec u) (podsAttr sns name),
            setResourceAttributes (userSarSpec u) (pvcsAttr sns name)],
           (false,
            "User " ++ u.username ++
              " has insufficient permissions in clone source namespace " ++ sns,
            none))))) ∧
    (sns ≠ saNs →
      client (setResourceAttributes (saSarSpec saNs saName) (dvCloneAttr sns name)) =
        Except.ok false →
      ((client (setResourceAttributes (saSarSpec saNs saName) (podsAttr sns name)) =
          Except.ok true →
        client (setResourceAttributes (saSarSpec saNs saName) (pvcsAttr sns name)) =
          Except.ok true →
        CanServiceAccountCloneSnapshot client sns name saNs saName =
          ([setResourceAttributes (saSarSpec saNs saName) (dvCloneAttr sns name),
            setResourceAttributes (saSarSpec saNs saName) (podsAttr sns name),
            setResourceAttributes (saSarSpec saNs saName) (pvcsAttr sns name)],
           (true, "", none))) ∧
       (client (setResourceAttributes (saSarSpec saNs saName) (podsAttr sns name)) =
          Except.ok false →
        CanServiceAccountCloneSnapshot client sns name saNs saName =
          ([setResourceAttributes (saSarSpec saNs saName) (dvCloneAttr sns name),
            setResourceAttributes (saSarSpec saNs saName) (podsAttr sns name)],
           (false,
            "User " ++ saUser saNs saName ++
              " has insufficient permissions in clone source namespace " ++ sns,
            none))) ∧
       (client (setResourceAttributes (saSarSpec saNs saName) (podsAttr sns name)) =
          Except.ok true →
        client (setResourceAttributes (saSarSpec saNs saName) (pvcsAttr sns name)) =
          Except.ok false →
        CanServiceAccountCloneSnapshot client sns name saNs saName =
          ([setResourceAttributes (saSarSpec saNs saName) (dvCloneAttr sns name),
            setResourceAttributes (saSarSpec saNs saName) (podsAttr sns name),
            setResourceAttributes (saSarSpec saNs saName) (pvcsAttr sns name)],
           (false,
            "User " ++ saUser saNs saName ++
              " has insufficient permissions in clone source namespace " ++ sns,
            none))))) := by
  refine ⟨fun h h1 => ⟨fun h2 h3 => ?_, fun h2 => ?_, fun h2 h3 => ?_⟩,
          fun h h1 => ⟨fun h2 h3 => ?_, fun h2 => ?_, fun h2 h3 => ?_⟩⟩
  · rw [canUserCloneSnapshot_cross client sns name tns u h]
    exact sendSnapshot_implicit_allowed client sns name _ h1 h2 h3
  · rw [canUserCloneSnapshot_cross client sns name tns u h]
    exact sendSnapshot_pods_denied client sns name _ h1 h2
  · rw [canUserCloneSnapshot_cross client sns name tns u h]
    exact sendSnapshot_pvcs_denied client sns name _ h1 h2 h3
  · rw [canServiceAccountCloneSnapshot_cross client sns name saNs saName h]
    exact sendSnapshot_implicit_allowed client sns name _ h1 h2 h3
  · rw [canServiceAccountCloneSnapshot_cross client sns name saNs saName h]
    exact sendSnapshot_pods_denied client sns name _ h1 h2
  · rw [canServiceAccountCloneSnapshot_cross client sns name saNs saName h]
    exact sendSnapshot_pvcs_denied client sns name _ h1 h2 h3

/-- C5: for every operation and every position in its query sequence,
an evaluator error `e` at that position makes the operation return the
Go triple `(false, "", e)` — the exact error value, an empty reason
(never the denial message), no decision — and the trace stops at the
erroring review, so no further query is submitted. -/
theorem claim_C5_error_propagation {ε : Type} (client : SubjectAccessReviewsProxy ε)
    (sns name tns saNs saName : String) (u : UserInfo) (e : ε) :
    (sns ≠ tns →
      (client (setResourceAttributes (userSarSpec u) (dvCloneAttr sns name)) =
          Except.error e →
        CanUserClonePVC client sns name tns u =
          ([setResourceAttributes (userSarSpec u) (dvCloneAttr sns name)],
           (false, "", some e))) ∧
      (client (setResourceAttributes (userSarSpec u) (dvCloneAttr sns name)) =
          Except.ok false →
       client (setResourceAttributes (userSarSpec u) (podsAttr sns name)) =
          Except.error e →
        CanUserClonePVC client sns name tns u =
          ([setResourceAttributes (userSarSpec u) (dvCloneAttr sns name),
            setResourceAttributes (userSarSpec u) (podsAttr sns name)],
           (false, "", some e))) ∧
      (client (setResourceAttributes (userSarSpec u) (dvCloneAttr sns name)) =
          Except.error e →
        CanUserCloneSnapshot client sns name tns u =
          ([setResourceAttributes (userSarSpec u) (dvCloneAttr sns name)],
           (false, "", some e))) ∧
      (client (setResourceAttributes (userSarSpec u) (dvCloneAttr sns name)) =
          Except.ok false →
       client (setResourceAttributes (userSarSpec u) (podsAttr sns name)) =
          Except.error e →
        CanUserCloneSnapshot client sns name tns u =
          ([setResourceAttributes (userSarSpec u) (dvCloneAttr sns name),
            setResourceAttributes (userSarSpec u) (podsAttr sns name)],
           (false, "", some e))) ∧
      (client (setResourceAttributes (userSarSpec u) (dvCloneAttr sns name)) =
          Except.ok false →
       client (setResourceAttributes (userSarSpec u) (podsAttr sns name)) =
          Except.ok true →
       client (setResourceAttributes (userSarSpec u) (pvcsAttr sns name)) =
          Except.error e →
        CanUserCloneSnapshot client sns name tns u =
          ([setResourceAttributes (userSarSpec u) (dvCloneAttr sns name),
            setResourceAttributes (userSarSpec u) (podsAttr sns name),
            setResourceAttributes (userSarSpec u) (pvcsAttr sns name)],
           (false, "", some e)))) ∧
    (sns ≠ saNs →
      (client (setResourceAttributes (saSarSpec saNs saName) (dvCloneAttr sns name)) =
          Except.error e →
        CanServiceAccountClonePVC client sns name saNs saName =
          ([setResourceAttributes (saSarSpec saNs saName) (dvCloneAttr sns name)],
           (false, "", some e))) ∧
      (client (setResourceAttributes (saSarSpec saNs saName) (dvCloneAttr sns name)) =
          Except.ok false →
       client (setResourceAttributes (saSarSpec saNs saName) (podsAttr sns name)) =
          Except.error e →
        CanServiceAccountClonePVC client sns name saNs saName =
          ([setResourceAttributes (saSarSpec saNs saName) (dvCloneAttr sns name),
            setResourceAttributes (saSarSpec saNs saName) (podsAttr sns name)],
           (false, "", some e))) ∧
      (client (setResourceAttributes (saSarSpec saNs saName) (dvCloneAttr sns name)) =
          Except.error e →
        CanServiceAccountCloneSnapshot client sns name saNs saName =
          ([setResourceAttributes (saSarSpec saNs saName) (dvCloneAttr sns name)],
           (false, "", some e))) ∧
      (client (setResourceAttributes (saSarSpec saNs saName) (dvCloneAttr sns name)) =
          Except.ok false →
       client (setResourceAttributes (saSarSpec saNs saName) (podsAttr sns name)) =
          Except.error e →
        CanServiceAccountCloneSnapshot client sns name saNs saName =
          ([setResourceAttributes (saSarSpec saNs saName) (dvCloneAttr sns name),
            setResourceAttributes (saSarSpec saNs saName) (podsAttr sns name)],
           (false, "", some e))) ∧
      (client (setResourceAttributes (saSarSpec saNs saName) (dvCloneAttr sns name)) =
          Except.ok false →
       client (setResourceAttributes (saSarSpec saNs saName) (podsAttr sns name)) =
          Except.ok true →
       client (setResourceAttributes (saSarSpec saNs saName) (pvcsAttr sns name)) =
          Except.error e →
        CanServiceAccountCloneSnapshot client sns name saNs saName =
          ([setResourceAttributes (saSarSpec saNs saName) (dvCloneAttr sns name),
            setResourceAttributes (saSarSpec saNs saName) (podsAttr sns name),
            setResourceAttributes (saSarSpec saNs saName) (pvcsAttr sns name)],
           (false, "", some e)))) := by
  refine ⟨fun h => ⟨fun h1 => ?_, fun h1 h2 => ?_, fun h1 => ?_, fun h1 h2 => ?_,
            fun h1 h2 h3 => ?_⟩,
          fun h => ⟨fun h1 => ?_, fun h1 h2 => ?_, fun h1 => ?_, fun h1 h2 => ?_,
            fun h1 h2 h3 => ?_⟩⟩
  · rw [canUserClonePVC_cross client sns name tns u h]
    exact sendPvc_first_error client sns name _ e h1
  · rw [canUserClonePVC_cross client sns name tns u h]
    exact sendPvc_second_error client sns name _ e h1 h2
  · rw [canUserCloneSnapshot_cross client sns name tns u h]
    exact sendSnapshot_explicit_error client sns name _ e h1
  · rw [canUserCloneSnapshot_cross client sns name tns u h]
    exact sendSnapshot_pods_error client sns name _ e h1 h2
  · rw [canUserCloneSnapshot_cross client sns name tns u h]
    exact sendSnapshot_pvcs_error client sns name _ e h1 h2 h3
  · rw [canServiceAccountClonePVC_cross client sns name saNs saName h]
    exact sendPvc_first_error client sns name _ e h1
  · rw [canServiceAccountClonePVC_cross client sns name saNs saName h]
    exact sendPvc_second_error client sns name _ e h1 h2
  · rw [canServiceAccountCloneSnapshot_cross client sns name saNs saName h]
    exact sendSnapshot_explicit_error client sns name _ e h1
  · rw [canServiceAccountCloneSnapshot_cross client sns name saNs saName h]
    exact sendSnapshot_pods_error client sns name _ e h1 h2
  · rw [canServiceAccountCloneSnapshot_cross client sns name saNs saName h]
    exact sendSnapshot_pvcs_error client sns name _ e h1 h2 h3

/-- C6: cross-namespace PVC clone in which both queries are denied
returns `allowed = false` with the exact reason
`"User <principal> has insufficient permissions in clone source namespace <ns>"`,
the principal being the username for the user entry point and the
synthesized service-account string for the service-account one. -/
theorem claim_C6_pvc_denial_reason {ε : Type} (client : SubjectAccessReviewsProxy ε)
    (sns name tns saNs saName : String) (u : UserInfo) :
    (sns ≠ tns →
      client (setResourceAttributes (userSarSpec u) (dvCloneAttr sns name)) =
        Except.ok false →
      client (setResourceAttributes (userSarSpec u) (podsAttr sns name)) =
        Except.ok false →
      CanUserClonePVC client sns name tns u =
        ([setResourceAttributes (userSarSpec u) (dvCloneAttr sns name),
          setResourceAttributes (userSarSpec u) (podsAttr sns name)],
         (false,
          "User " ++ u.username ++
            " has insufficient permissions in clone source namespace " ++ sns,
          none))) ∧
    (sns ≠ saNs →
      client (setResourceAttributes (saSarSpec saNs saName) (dvCloneAttr sns name)) =
        Except.ok false →
      client (setResourceAttributes (saSarSpec saNs saName) (podsAttr sns name)) =
        Except.ok false →
      CanServiceAccountClonePVC client sns name saNs saName =
        ([setResourceAttributes (saSarSpec saNs saName) (dvCloneAttr sns name),
          setResourceAttributes (saSarSpec saNs saName) (podsAttr sns name)],
         (false,
          "User " ++ ("system:serviceaccount:" ++ saNs ++ ":" ++ saName) ++
            " has insufficient permissions in clone source namespace " ++ sns,
          none))) := by
  refine ⟨fun h h1 h2 => ?_, fun h h1 h2 => ?_⟩
  · rw [canUserClonePVC_cross client sns name tns u h]
    exact sendPvc_both_denied client sns name _ h1 h2
  · rw [canServiceAccountClonePVC_cross client sns name saNs saName h]
    exact sendPvc_both_denied client sns name _ h1 h2

/-- C7: every review a service-account operation submits carries the
principal `system:serviceaccount:<saNamespace>:<saName>`, exactly the
three fixed groups, and no extra attributes, for arbitrary namespace
and name strings. -/
theorem claim_C7_service_account_subject {ε : Type} (client : SubjectAccessReviewsProxy ε)
    (pns name saNs saName : String) :
    (∀ q ∈ (CanServiceAccountClonePVC client pns name saNs saName).1,
      q.user = "system:serviceaccount:" ++ saNs ++ ":" ++ saName ∧
      q.groups = ["system:serviceaccounts", "system:serviceaccounts:" ++ saNs,
                  "system:authenticated"] ∧
      q.extra = none) ∧
    (∀ q ∈ (CanServiceAccountCloneSnapshot client pns name saNs saName).1,
      q.user = "system:serviceaccount:" ++ saNs ++ ":" ++ saName ∧
      q.groups = ["system:serviceaccounts", "system:serviceaccounts:" ++ saNs,
                  "system:authenticated"] ∧
      q.extra = none) := by
  by_cases hns : pns = saNs
  · constructor <;> intro q hq <;>
      simp [CanServiceAccountClonePVC, CanServiceAccountCloneSnapshot, hns] at hq
  · constructor <;> intro q hq
    · rw [canServiceAccountClonePVC_cross client pns name saNs saName hns] at hq
      rcases sendPvc_trace_fields client pns name (saSarSpec saNs saName) q hq with
        ⟨h1, h2, h3, _⟩
      exact ⟨h1, h2, h3⟩
    · rw [canServiceAccountCloneSnapshot_cross client pns name saNs saName hns] at hq
      rcases sendSnapshot_trace_fields client pns name (saSarSpec saNs saName) q hq with
        ⟨h1, h2, h3, _⟩
      exact ⟨h1, h2, h3⟩

/-- C8: every review a user operation submits carries the input extra
map unchanged when that map is non-empty, and no extra map at all
(`none`, the Go nil map) when the input map is empty. -/
theorem claim_C8_user_extra_passthrough {ε : Type} (client : SubjectAccessReviewsProxy ε)
    (sns name tns : String) (u : UserInfo) :
    (u.extra ≠ [] →
      (∀ q ∈ (CanUserClonePVC client sns name tns u).1, q.extra = some u.extra) ∧
      (∀ q ∈ (CanUserCloneSnapshot client sns name tns u).1, q.extra = some u.extra)) ∧
    (u.extra = [] →
      (∀ q ∈ (CanUserClonePVC client sns name tns u).1, q.extra = none) ∧
      (∀ q ∈ (CanUserCloneSnapshot client sns name tns u).1, q.extra = none)) := by
  have key : ∀ q, (q ∈ (CanUserClonePVC client sns name tns u).1 ∨
      q ∈ (CanUserCloneSnapshot client sns name tns u).1) →
      q.extra = newExtraOf u.extra := by
    by_cases hns : sns = tns
    · intro q hq
      rcases hq with hq | hq <;>
        simp [CanUserClonePVC, CanUserCloneSnapshot, hns] at hq
    · intro q hq
      rcases hq with hq | hq
      · rw [canUserClonePVC_cross client sns name tns u hns] at hq
        exact (sendPvc_trace_fields client sns name (userSarSpec u) q hq).2.2.1
      · rw [canUserCloneSnapshot_cross client sns name tns u hns] at hq
        exact (sendSnapshot_trace_fields client sns name (userSarSpec u) q hq).2.2.1
  constructor
  · intro hne
    have hl : u.extra.length > 0 := List.length_pos.mpr hne
    constructor <;> intro q hq
    · rw [key q (Or.inl hq)]
      simp [newExtraOf, hl]
    · rw [key q (Or.inr hq)]
      simp [newExtraOf, hl]
  · intro hnil
    constructor <;> intro q hq
    · rw [key q (Or.inl hq)]
      simp [newExtraOf, hnil]
    · rw [key q (Or.inr hq)]
      simp [newExtraOf, hnil]

/-- C9: across all clients and inputs the PVC operations submit at
most two reviews, the snapshot operations at most three, and the
same-namespace shortcut submits none; every call is a terminating
total computation returning a trace and a result triple. -/
theorem claim_C9_query_count_bounds {ε : Type} (client : SubjectAccessReviewsProxy ε)
    (sns name tns saNs saName : String) (u : UserInfo) :
    (CanUserClonePVC client sns name tns u).1.length ≤ 2 ∧
    (CanServiceAccountClonePVC client sns name saNs saName).1.length ≤ 2 ∧
    (CanUserCloneSnapshot client sns name tns u).1.length ≤ 3 ∧
    (CanServiceAccountCloneSnapshot client sns name saNs saName).1.length ≤ 3 ∧
    (sns = tns →
      (CanUserClonePVC client sns name tns u).1.length = 0 ∧
      (CanUserCloneSnapshot client sns name tns u).1.length = 0) ∧
    (sns = saNs →
      (CanServiceAccountClonePVC client sns name saNs saName).1.length = 0 ∧
      (CanServiceAccountCloneSnapshot client sns name saNs saName).1.length = 0) := by
  refine ⟨?_, ?_, ?_, ?_, fun h => ?_, fun h => ?_⟩
  · by_cases hns : sns = tns
    · simp [CanUserClonePVC, hns]
    · rw [canUserClonePVC_cross client sns name tns u hns]
      exact sendPvc_trace_length_le client sns name _
  · by_cases hns : sns = saNs
    · simp [CanServiceAccountClonePVC, hns]
    · rw [canServiceAccountClonePVC_cross client sns name saNs saName hns]
      exact sendPvc_trace_length_le client sns name _
  · by_cases hns : sns = tns
    · simp [CanUserCloneSnapshot, hns]
    · rw [canUserCloneSnapshot_cross client sns name tns u hns]
      exact sendSnapshot_trace_length_le client sns name _
  · by_cases hns : sns = saNs
    · simp [CanServiceAccountCloneSnapshot, hns]
    · rw [canServiceAccountCloneSnapshot_cross client sns name saNs saName hns]
      exact sendSnapshot_trace_length_le client sns name _
  · simp [CanUserClonePVC, CanUserCloneSnapshot, h]
  · simp [CanServiceAccountClonePVC, CanServiceAccountCloneSnapshot, h]

/-- C10: every review any of the four operations submits within one
call carries the subject built once for that call (same user, groups
and extra on every review) and resource attributes with verb create,
the source namespace and the source object name — also for the pods
and pvcs reviews, whose name field is the source object name. -/
theorem claim_C10_uniform_query_shape {ε : Type} (client : SubjectAccessReviewsProxy ε)
    (sns name tns saNs saName : String) (u : UserInfo) :
    (∀ q ∈ (CanUserClonePVC client sns name tns u).1,
      q.user = u.username ∧ q.groups = u.groups ∧ q.extra = newExtraOf u.extra ∧
      ∃ ra, q.resourceAttributes = some ra ∧
        ra.verb = "create" ∧ ra.ns = sns ∧ ra.name = name) ∧
    (∀ q ∈ (CanServiceAccountClonePVC client sns name saNs saName).1,
      q.user = saUser saNs saName ∧ q.groups = saGroups saNs ∧ q.extra = none ∧
      ∃ ra, q.resourceAttributes = some ra ∧
        ra.verb = "create" ∧ ra.ns = sns ∧ ra.name = name) ∧
    (∀ q ∈ (CanUserCloneSnapshot client sns name tns u).1,
      q.user = u.username ∧ q.groups = u.groups ∧ q.extra = newExtraOf u.extra ∧
      ∃ ra, q.resourceAttributes = some ra ∧
        ra.verb = "create" ∧ ra.ns = sns ∧ ra.name = name) ∧
    (∀ q ∈ (CanServiceAccountCloneSnapshot client sns name saNs saName).1,
      q.user = saUser saNs saName ∧ q.groups = saGroups saNs ∧ q.extra = none ∧
      ∃ ra, q.resourceAttributes = some ra ∧
        ra.verb = "create" ∧ ra.ns = sns ∧ ra.name = name) := by
  refine ⟨fun q hq => ?_, fun q hq => ?_, fun q hq => ?_, fun q hq => ?_⟩
  · by_cases hns : sns = tns
    · simp [CanUserClonePVC, hns] at hq
    · rw [canUserClonePVC_cross client sns name tns u hns] at hq
      exact sendPvc_trace_fields client sns name (userSarSpec u) q hq
  · by_cases hns : sns = saNs
    · simp [CanServiceAccountClonePVC, hns] at hq
    · rw [canServiceAccountClonePVC_cross client sns name saNs saName hns] at hq
      exact sendPvc_trace_fields client sns name (saSarSpec saNs saName) q hq
  · by_cases hns : sns = tns
    · simp [CanUserCloneSnapshot, hns] at hq
    · rw [canUserCloneSnapshot_cross client sns name tns u hns] at hq
      exact sendSnapshot_trace_fields client sns name (userSarSpec u) q hq
  · by_cases hns : sns = saNs
    · simp [CanServiceAccountCloneSnapshot, hns] at hq
    · rw [canServiceAccountCloneSnapshot_cross client sns name saNs saName hns] at hq
      exact sendSnapshot_trace_fields client sns name (saSarSpec saNs saName) q hq

/-! ### Witness instances -/

/-- C1 at concrete inputs: a same-namespace user PVC clone succeeds
with an empty trace even under an all-denying client. -/
theorem claim_C1_witness :
    ("ns1" : String) = "ns1" ∧
    CanUserClonePVC clientDenyAll "ns1" "pvc1" "ns1" uAlice = ([], (true, "", none)) :=
  ⟨rfl,
   (claim_C1_same_namespace_shortcut clientDenyAll "ns1" "pvc1" "ns1" "sa1" uAlice rfl).1⟩

/-- C2 at concrete inputs: with a client allowing only datavolumes
reviews, the cross-namespace user PVC clone succeeds after exactly the
one datavolumes review. -/
theorem claim_C2_witness :
    ("src" : String) ≠ "dst" ∧
    clientAllowResource "datavolumes"
      (setResourceAttributes (userSarSpec uAlice) (dvCloneAttr "src" "d")) =
      Except.ok true ∧
    CanUserClonePVC (clientAllowResource "datavolumes") "src" "d" "dst" uAlice =
      ([setResourceAttributes (userSarSpec uAlice) (dvCloneAttr "src" "d")],
       (true, "", none)) :=
  ⟨by decide, rfl,
   ((claim_C2_pvc_short_circuit_or (clientAllowResource "datavolumes")
      "src" "d" "dst" "sa-ns" "sa1" uAlice).1 (by decide)).1 rfl⟩

/-- C3 at concrete inputs: with a client allowing only datavolumes
reviews, the cross-namespace user snapshot clone succeeds after
exactly the one explicit review. -/
theorem claim_C3_witness :
    ("src" : String) ≠ "dst" ∧
    clientAllowResource "datavolumes"
      (setResourceAttributes (userSarSpec uAlice) (dvCloneAttr "src" "d")) =
      Except.ok true ∧
    CanUserCloneSnapshot (clientAllowResource "datavolumes") "src" "d" "dst" uAlice =
      ([setResourceAttributes (userSarSpec uAlice) (dvCloneAttr "src" "d")],
       (true, "", none)) :=
  ⟨by decide, rfl,
   (claim_C3_snapshot_explicit_allowed (clientAllowResource "datavolumes")
      "src" "d" "dst" "sa-ns" "sa1" uAlice).1 (by decide) rfl⟩

/-- C4 at concrete inputs: under an all-denying client the
cross-namespace user snapshot clone stops after the explicit and pods
reviews and returns the denial reason. -/
theorem claim_C4_witness :
    ("src" : String) ≠ "dst" ∧
    clientDenyAll (setResourceAttributes (userSarSpec uAlice) (dvCloneAttr "src" "d")) =
      Except.ok false ∧
    clientDenyAll (setResourceAttributes (userSarSpec uAlice) (podsAttr "src" "d")) =
      Except.ok false ∧
    CanUserCloneSnapshot clientDenyAll "src" "d" "dst" uAlice =
      ([setResourceAttributes (userSarSpec uAlice) (dvCloneAttr "src" "d"),
        setResourceAttributes (userSarSpec uAlice) (podsAttr "src" "d")],
       (false,
        "User " ++ uAlice.username ++
          " has insufficient permissions in clone source namespace " ++ "src",
        none)) :=
  ⟨by decide, rfl, rfl,
   ((claim_C4_snapshot_implicit_and clientDenyAll "src" "d" "dst" "sa-ns" "sa1" uAlice).1
      (by decide) rfl).2.1 rfl⟩

/-- C5 at concrete inputs: a client erroring on the datavolumes review
makes the cross-namespace user PVC clone return that exact error after
one review. -/
theorem claim_C5_witness :
    ("src" : String) ≠ "dst" ∧
    clientErrOnResource "datavolumes"
      (setResourceAttributes (userSarSpec uAlice) (dvCloneAttr "src" "d")) =
      Except.error "boom" ∧
    CanUserClonePVC (clientErrOnResource "datavolumes") "src" "d" "dst" uAlice =
      ([setResourceAttributes (userSarSpec uAlice) (dvCloneAttr "src" "d")],
       (false, "", some "boom")) :=
  ⟨by decide, rfl,
   ((claim_C5_error_propagation (clientErrOnResource "datavolumes")
      "src" "d" "dst" "sa-ns" "sa1" uAlice "boom").1 (by decide)).1 rfl⟩

/-- C6 at concrete inputs: under an all-denying client the
cross-namespace user PVC clone returns the format denial message. -/
theorem claim_C6_witness :
    ("src" : String) ≠ "dst" ∧
    clientDenyAll (setResourceAttributes (userSarSpec uAlice) (dvCloneAttr "src" "d")) =
      Except.ok false ∧
    clientDenyAll (setResourceAttributes (userSarSpec uAlice) (podsAttr "src" "d")) =
      Except.ok false ∧
    CanUserClonePVC clientDenyAll "src" "d" "dst" uAlice =
      ([setResourceAttributes (userSarSpec uAlice) (dvCloneAttr "src" "d"),
        setResourceAttributes (userSarSpec uAlice) (podsAttr "src" "d")],
       (false,
        "User " ++ uAlice.username ++
          " has insufficient permissions in clone source namespace " ++ "src",
        none)) :=
  ⟨by decide, rfl, rfl,
   (claim_C6_pvc_denial_reason clientDenyAll "src" "d" "dst" "sa-ns" "sa1" uAlice).1
      (by decide) rfl rfl⟩

/-- C7 at concrete inputs: the first review submitted by a
cross-namespace service-account PVC clone carries the synthesized
principal, the three fixed groups and no extra attributes. -/
theorem claim_C7_witness :
    setResourceAttributes (saSarSpec "sa-ns" "sa1") (dvCloneAttr "src" "d") ∈
      (CanServiceAccountClonePVC clientDenyAll "src" "d" "sa-ns" "sa1").1 ∧
    ((setResourceAttributes (saSarSpec "sa-ns" "sa1") (dvCloneAttr "src" "d")).user =
        "system:serviceaccount:" ++ "sa-ns" ++ ":" ++ "sa1" ∧
     (setResourceAttributes (saSarSpec "sa-ns" "sa1") (dvCloneAttr "src" "d")).groups =
        ["system:serviceaccounts", "system:serviceaccounts:" ++ "sa-ns",
         "system:authenticated"] ∧
     (setResourceAttributes (saSarSpec "sa-ns" "sa1") (dvCloneAttr "src" "d")).extra =
        none) := by
  have hmem : setResourceAttributes (saSarSpec "sa-ns" "sa1") (dvCloneAttr "src" "d") ∈
      (CanServiceAccountClonePVC clientDenyAll "src" "d" "sa-ns" "sa1").1 := by
    rw [show (CanServiceAccountClonePVC clientDenyAll "src" "d" "sa-ns" "sa1").1 =
      [setResourceAttributes (saSarSpec "sa-ns" "sa1") (dvCloneAttr "src" "d"),
       setResourceAttributes (saSarSpec "sa-ns" "sa1") (podsAttr "src" "d")] from rfl]
    exact List.mem_cons_self _ _
  exact ⟨hmem,
    (claim_C7_service_account_subject clientDenyAll "src" "d" "sa-ns" "sa1").1 _ hmem⟩

/-- C8 at concrete inputs: a user with a non-empty extra map sees that
map unchanged on a submitted review. -/
theorem claim_C8_witness :
    uBob.extra ≠ [] ∧
    setResourceAttributes (userSarSpec uBob) (dvCloneAttr "src" "d") ∈
      (CanUserClonePVC clientDenyAll "src" "d" "dst" uBob).1 ∧
    (setResourceAttributes (userSarSpec uBob) (dvCloneAttr "src" "d")).extra =
      some uBob.extra := by
  have hmem : setResourceAttributes (userSarSpec uBob) (dvCloneAttr "src" "d") ∈
      (CanUserClonePVC clientDenyAll "src" "d" "dst" uBob).1 := by
    rw [show (CanUserClonePVC clientDenyAll "src" "d" "dst" uBob).1 =
      [setResourceAttributes (userSarSpec uBob) (dvCloneAttr "src" "d"),
       setResourceAttributes (userSarSpec uBob) (podsAttr "src" "d")] from rfl]
    exact List.mem_cons_self _ _
  exact ⟨by decide, hmem,
    ((claim_C8_user_extra_passthrough clientDenyAll "src" "d" "dst" uBob).1
      (by decide)).1 _ hmem⟩

/-- C9 at concrete inputs: with equal namespaces both user operations
submit zero reviews, and the PVC bound holds. -/
theorem claim_C9_witness :
    ("a" : String) = "a" ∧
    (CanUserClonePVC clientDenyAll "a" "d" "a" uAlice).1.length = 0 ∧
    (CanUserCloneSnapshot clientDenyAll "a" "d" "a" uAlice).1.length = 0 ∧
    (CanUserClonePVC clientDenyAll "a" "d" "a" uAlice).1.length ≤ 2 := by
  have h := claim_C9_query_count_bounds clientDenyAll "a" "d" "a" "a" "sa1" uAlice
  exact ⟨rfl, (h.2.2.2.2.1 rfl).1, (h.2.2.2.2.1 rfl).2, h.1⟩

/-- C10 at concrete inputs: the first review submitted by a
cross-namespace user PVC clone carries the user subject and
create-verb attributes against the source namespace and name. -/
theorem claim_C10_witness :
    setResourceAttributes (userSarSpec uAlice) (dvCloneAttr "src" "d") ∈
      (CanUserClonePVC clientDenyAll "src" "d" "dst" uAlice).1 ∧
    ((setResourceAttributes (userSarSpec uAlice) (dvCloneAttr "src" "d")).user =
        uAlice.username ∧
     (setResourceAttributes (userSarSpec uAlice) (dvCloneAttr "src" "d")).groups =
        uAlice.groups ∧
     (setResourceAttributes (userSarSpec uAlice) (dvCloneAttr "src" "d")).extra =
        newExtraOf uAlice.extra ∧
     ∃ ra, (setResourceAttributes (userSarSpec uAlice) (dvCloneAttr "src" "d")).resourceAttributes =
        some ra ∧ ra.verb = "create" ∧ ra.ns = "src" ∧ ra.name = "d") := by
  have hmem : setResourceAttributes (userSarSpec uAlice) (dvCloneAttr "src" "d") ∈
      (CanUserClonePVC clientDenyAll "src" "d" "dst" uAlice).1 := by
    rw [show (CanUserClonePVC clientDenyAll "src" "d" "dst" uAlice).1 =
      [setResourceAttributes (userSarSpec uAlice) (dvCloneAttr "src" "d"),
       setResourceAttributes (userSarSpec uAlice) (podsAttr "src" "d")] from rfl]
    exact List.mem_cons_self _ _
  exact ⟨hmem,
    (claim_C10_uniform_query_shape clientDenyAll "src" "d" "dst" "sa-ns" "sa1" uAlice).1
      _ hmem⟩

end CloneAuth
